import Mathlib

/-!
Shallow embedding of the squash-push VS Code extension
(`src/extension.ts`, plus the earlier multi-select variant of the
command handler) together with theorems checking the specification's
claims against it.

JavaScript strings are modelled as Lean `String`; the JavaScript
operations the source uses (`split` with a one-character separator,
`trim`, truthiness of `string | null | undefined`) are defined below
with JavaScript semantics.
-/

/-- Characters treated as whitespace by JavaScript `String.prototype.trim`
(restricted to the ASCII whitespace characters that can occur in git
command output). -/
def isJsWs (c : Char) : Bool :=
  c = ' ' || c = '\t' || c = '\n' || c = '\r' || c = '\x0b' || c = '\x0c'

/-- JavaScript `s.trim()`: removes leading and trailing whitespace. -/
def jsTrim (s : String) : String :=
  ⟨((s.data.dropWhile isJsWs).reverse.dropWhile isJsWs).reverse⟩

/-- Auxiliary for `jsSplit`: returns the first field and the remaining
fields of a character list split at every occurrence of `sep`. -/
def splitCharAux (sep : Char) : List Char → List Char × List (List Char)
  | [] => ([], [])
  | c :: cs =>
    if c = sep then ([], (splitCharAux sep cs).1 :: (splitCharAux sep cs).2)
    else (c :: (splitCharAux sep cs).1, (splitCharAux sep cs).2)

/-- JavaScript `s.split(sep)` for a one-character separator `sep`
(the source only splits on `"\n"` and `" "`).  Never returns the empty
list; `"".split(sep)` is `[""]`. -/
def jsSplit (sep : Char) (s : String) : List String :=
  ((splitCharAux sep s.data).1 :: (splitCharAux sep s.data).2).map (fun l => ⟨l⟩)

/-- Truthiness of a JavaScript `string | null | undefined` value:
`null`/`undefined` (here `none`) and the empty string are falsy. -/
def jsFalsy : Option String → Bool
  | none => true
  | some s => s == ""

/-- Outcome of running one external process with `child_process.exec`:
`error` is `some description` when the process exited non-zero or could
not be spawned (`description` models `error.message`), `stdout` and
`stderr` are the captured streams. -/
structure ExecOutcome where
  error : Option String
  stdout : String
  stderr : String
deriving DecidableEq

/-- Embedding of `execGitCommand` (src/extension.ts, lines 39-49): on an
`error` the promise rejects with `stderr || error.message` (standard
error when non-empty, else the process-level message); otherwise it
resolves with `stdout.trim()`. -/
def execGitCommand (o : ExecOutcome) : Except String String :=
  match o.error with
  | some msg => .error (if o.stderr = "" then msg else o.stderr)
  | none => .ok (jsTrim o.stdout)

namespace GIT_COMMANDS

/-- Embedding of `GIT_COMMANDS.CURRENT_BRANCH`. -/
def CURRENT_BRANCH : String := "git symbolic-ref --short HEAD"

/-- Embedding of `GIT_COMMANDS.UPSTREAM_BRANCH`. -/
def UPSTREAM_BRANCH (branch : String) : String :=
  "git rev-parse --symbolic-full-name --abbrev-ref " ++ branch ++ "@{upstream}"

/-- Embedding of `GIT_COMMANDS.LOCAL_COMMITS`. -/
def LOCAL_COMMITS : String := "git log --oneline"

/-- Embedding of `GIT_COMMANDS.LOCAL_COMMITS_TRACKING`. -/
def LOCAL_COMMITS_TRACKING (upstreamBranch branch : String) : String :=
  "git log --oneline " ++ upstreamBranch ++ ".." ++ branch

/-- Embedding of `GIT_COMMANDS.SQUASH_AND_COMMIT` as defined in the
current src/extension.ts (line 29): note there is no `~1` after the
commit id in this version of the source. -/
def SQUASH_AND_COMMIT (commitID : String) : String :=
  "git reset --soft " ++ commitID ++ " && git commit --amend"

end GIT_COMMANDS

/-- Embedding of `getCurrentBranch` (lines 57-63): result of the
current-branch query, with any failure of `execGitCommand` caught and
turned into `null`. -/
def getCurrentBranch (o : ExecOutcome) : Option String :=
  match execGitCommand o with
  | .ok s => some s
  | .error _ => none

/-- Embedding of `getCurrentUpStreamBranch` (lines 72-78): result of the
upstream query for `currentBranch`, with any failure caught and turned
into `null`.  (`currentBranch` only selects which command is run; the
run's outcome is the `ExecOutcome` argument.) -/
def getCurrentUpStreamBranch (currentBranch : String) (o : ExecOutcome) :
    Option String :=
  match currentBranch, execGitCommand o with
  | _, .ok s => some s
  | _, .error _ => none

/-- Embedding of `getLocalCommits` (lines 87-93): result of the commit
log query `localCommitLogsCmd`, with any failure caught and turned into
`null`. -/
def getLocalCommits (localCommitLogsCmd : String) (o : ExecOutcome) :
    Option String :=
  match localCommitLogsCmd, execGitCommand o with
  | _, .ok s => some s
  | _, .error _ => none

/-- Label rendered for one commit-log line by `showCommitSelection`
(line 110 of src/extension.ts). -/
def renderLabel (commit : String) : String :=
  "$(git-commit) Commit: " ++ commit

/-- Embedding of `showCommitSelection` (lines 101-130).  The string of
commit-log lines is split on newlines; the user's interaction with the
quick pick is modelled by `selection`: `some i` means the accept event
fired with the item rendered from the `i`-th commit selected (the
promise then resolves with that item's label), `none` means the quick
pick was dismissed (the hide handler resolves with `""`).  An index
outside the rendered items cannot be selected and is likewise
modelled by `""`. -/
def showCommitSelection (localCommits : String) (selection : Option Nat) :
    String :=
  let commits : List String := jsSplit '\n' localCommits
  match selection with
  | none => ""
  | some i =>
    match commits.get? i with
    | some commit => renderLabel commit
    | none => ""

/-- Embedding of `getCommitID` (lines 183-188): `null` for a falsy
argument, else `selectedCommit.split(" ")[2]` (`none` models the
JavaScript `undefined` when the index is out of range). -/
def getCommitID (selectedCommit : String) : Option String :=
  if selectedCommit = "" then none
  else (jsSplit ' ' selectedCommit).get? 2

/-- Embedding of `getDescription` (lines 197-204). -/
def getDescription (index : Nat) (commits : List String) : Option String :=
  if index = 0 then some "\t(Most recent)"
  else if index = commits.length - 1 then some "\t(Oldest)"
  else none

/-- Result of the multi-select variant's `getCommitID`
(src/unnamed/part_001, lines 75-87): it either shows an informational
message and returns `undefined` (`noSelection`), returns a commit id
string (`commitId`), or throws a `TypeError` (`crash`). -/
inductive MultiSelectOutcome where
  | crash
  | noSelection (explanation : String)
  | commitId (id : String)
deriving DecidableEq

/-- Embedding of the multi-select variant's `getCommitID`
(src/unnamed/part_001, lines 75-87).  `!selectedCommits` is true only
for `undefined` (an empty array is truthy in JavaScript), so an empty
array falls through both guards and `selectedCommits[0].split(" ")[0]`
throws a `TypeError` (`selectedCommits[0]` is `undefined`). -/
def getCommitID_multi (selectedCommits : Option (List String)) :
    MultiSelectOutcome :=
  match selectedCommits with
  | none => .noSelection "No commits are selected."
  | some cs =>
    if cs.length > 1 then
      .noSelection
        "You have selected more than one commits, Please select the oldest commit to keep as base"
    else
      match cs with
      | [] => .crash
      | c :: _ => .commitId ((jsSplit ' ' c).headD "")

/-- Environment of one orchestration run: whether a workspace folder is
open, the outcome of each external process the handler may spawn, and
the user's interaction with the quick pick (as in
`showCommitSelection`). -/
structure GitEnv where
  hasWorkspace : Bool
  branchExec : ExecOutcome
  upstreamExec : ExecOutcome
  logExec : ExecOutcome
  selection : Option Nat
  squashExec : ExecOutcome
deriving DecidableEq

/-- Observable trace of one orchestration run: the user-facing
notifications shown, the git command lines passed to `execGitCommand`
in order, and the commit id handed to `SQUASH_AND_COMMIT` when the
squash step was reached (`none` otherwise). -/
structure RunResult where
  messages : List String
  gitCommands : List String
  squashedID : Option String
deriving DecidableEq

/-- Local variable `currentBranch` of the command handler (line 243),
defaulted to `""` (only read in branches where it is truthy). -/
def branchOf (env : GitEnv) : String :=
  (getCurrentBranch env.branchExec).getD ""

/-- Local variable `currentUpstreamBranch` of the command handler
(line 250). -/
def upstreamOf (env : GitEnv) : Option String :=
  getCurrentUpStreamBranch (branchOf env) env.upstreamExec

/-- Local variable `localCommitLogsCmd` of the command handler
(lines 253-256): the tracking query when the upstream branch is truthy,
the full log otherwise. -/
def logCmdOf (env : GitEnv) : String :=
  if !jsFalsy (upstreamOf env) then
    GIT_COMMANDS.LOCAL_COMMITS_TRACKING ((upstreamOf env).getD "") (branchOf env)
  else GIT_COMMANDS.LOCAL_COMMITS

/-- Local variable `localCommits` of the command handler (line 257). -/
def localCommitsOf (env : GitEnv) : Option String :=
  getLocalCommits (logCmdOf env) env.logExec

/-- Local variable `selectedCommit` of the command handler (line 265). -/
def selectedOf (env : GitEnv) : String :=
  showCommitSelection ((localCommitsOf env).getD "") env.selection

/-- Local variable `commitID` of the command handler (line 266). -/
def commitIDOf (env : GitEnv) : Option String :=
  getCommitID (selectedOf env)

/-- The three read-only queries a run has issued once it passed the
detached-HEAD check: current branch, upstream branch, and the chosen
commit-log command. -/
def queriesOf (env : GitEnv) : List String :=
  [GIT_COMMANDS.CURRENT_BRANCH, GIT_COMMANDS.UPSTREAM_BRANCH (branchOf env),
   logCmdOf env]

/-- Embedding of the `squash-push.squashCommits` command handler
(src/extension.ts, lines 235-286).  Each early `return` of the handler
becomes a branch recording the notifications shown and the commands
issued so far; `if (!x)` tests on `string | null` values are
`jsFalsy`. -/
def orchestrate (env : GitEnv) : RunResult :=
  if !env.hasWorkspace then
    ⟨["No workspace folder found."], [], none⟩
  else if jsFalsy (getCurrentBranch env.branchExec) then
    ⟨["You are maybe in detached State, please checkout to a branch"],
     [GIT_COMMANDS.CURRENT_BRANCH], none⟩
  else if jsFalsy (localCommitsOf env) then
    ⟨["No local commits found."], queriesOf env, none⟩
  else if jsFalsy (commitIDOf env) then
    ⟨[], queriesOf env, none⟩
  else
    match execGitCommand env.squashExec with
    | .ok _ =>
      ⟨["Squashing commits. Edit the message or close the editor to keep the default",
        "Commits squashed!"],
       queriesOf env ++ [GIT_COMMANDS.SQUASH_AND_COMMIT ((commitIDOf env).getD "")],
       some ((commitIDOf env).getD "")⟩
    | .error _ =>
      ⟨["Squashing commits. Edit the message or close the editor to keep the default",
        "An Error Occurred while squashing commits"],
       queriesOf env ++ [GIT_COMMANDS.SQUASH_AND_COMMIT ((commitIDOf env).getD "")],
       some ((commitIDOf env).getD "")⟩

/-- Commit id token of one commit-log line: `log --oneline` prints
`<id> <summary>`, so the id is the first space-delimited token of the
line (the `id` attribute of the data model's Commit). -/
def idToken (commitLine : String) : String :=
  (jsSplit ' ' commitLine).headD ""

/-- Modelled from the spec: the spec claims the Command Runner "trims
trailing whitespace from standard output"; this is trailing-only
trimming, to be compared with the source's `stdout.trim()`. -/
def trimTrailingOnly (s : String) : String :=
  ⟨(s.data.reverse.dropWhile isJsWs).reverse⟩

/-- Modelled from the spec: the squash command template the spec claims
(`reset --soft <commitId>~1 && commit --amend`), to be compared with
the source's `GIT_COMMANDS.SQUASH_AND_COMMIT`. -/
def SQUASH_AND_COMMIT_claimed (commitID : String) : String :=
  "git reset --soft " ++ commitID ++ "~1 && git commit --amend"

/-- Read-only git commands of this extension: every command template of
`GIT_COMMANDS` except the squash command is a pure query. -/
def isReadOnlyCmd (cmd : String) : Prop :=
  cmd = GIT_COMMANDS.CURRENT_BRANCH ∨ cmd = GIT_COMMANDS.LOCAL_COMMITS ∨
  (∃ b, cmd = GIT_COMMANDS.UPSTREAM_BRANCH b) ∨
  (∃ u b, cmd = GIT_COMMANDS.LOCAL_COMMITS_TRACKING u b)

/-- Concrete run on a repository whose full commit log is the single
line `abc123 init`: with no upstream configured the handler uses the
full log, so `abc123` is the repository's root commit (a `log
--oneline` of one line means the commit has no parent), and the user
selects it as base. -/
def envRootSelected : GitEnv :=
  { hasWorkspace := true
    branchExec := ⟨none, "main", ""⟩
    upstreamExec := ⟨some "fatal: no upstream configured for branch main", "",
      "fatal: no upstream configured for branch main"⟩
    logExec := ⟨none, "abc123 init", ""⟩
    selection := some 0
    squashExec := ⟨none, "", ""⟩ }

/-- Concrete run with upstream `origin/feature` configured, two
unpushed commits, and the older one (`c2 add`) selected; the squash
command succeeds. -/
def envSquashRun : GitEnv :=
  { hasWorkspace := true
    branchExec := ⟨none, "feature", ""⟩
    upstreamExec := ⟨none, "origin/feature", ""⟩
    logExec := ⟨none, "c3 fix\nc2 add", ""⟩
    selection := some 1
    squashExec := ⟨none, "", ""⟩ }

/-- Concrete run with no upstream configured (so the full log is used)
and the quick pick dismissed without a choice. -/
def envFullLog : GitEnv :=
  { hasWorkspace := true
    branchExec := ⟨none, "main", ""⟩
    upstreamExec := ⟨some "fatal: no upstream configured for branch main", "",
      "fatal: no upstream configured for branch main"⟩
    logExec := ⟨none, "c2 two\nc1 one", ""⟩
    selection := none
    squashExec := ⟨none, "", ""⟩ }

/-- Concrete three-entry commit list used to evaluate the rendering
annotations. -/
def threeCommits : List String := ["c3 fix", "c2 add", "c1 init"]

/-- Splitting a character list that starts with the concrete label
prefix `$(git-commit) Commit: ` at spaces yields the two prefix tokens
followed by the split of the rest. -/
theorem splitCharAux_label (l : List Char) :
    splitCharAux ' ' ("$(git-commit) Commit: ".data ++ l) =
      ("$(git-commit)".data,
       "Commit:".data :: (splitCharAux ' ' l).1 :: (splitCharAux ' ' l).2) := rfl

/-- Splitting a rendered quick-pick label at spaces yields the two
tokens of the label prefix followed by the tokens of the commit-log
line. -/
theorem jsSplit_label (c : String) :
    jsSplit ' ' (renderLabel c) =
      "$(git-commit)" :: "Commit:" :: jsSplit ' ' c := by
  unfold jsSplit renderLabel
  rw [String.data_append, splitCharAux_label]
  simp only [List.map_cons]

/-- Rendered labels are never the empty string. -/
theorem renderLabel_ne_empty (c : String) : renderLabel c ≠ "" := by
  intro h
  have hd := congrArg String.data h
  rw [renderLabel, String.data_append] at hd
  simp at hd

/-- JavaScript `split` never returns an empty array. -/
theorem jsSplit_ne_nil (sep : Char) (s : String) : jsSplit sep s ≠ [] := by
  simp [jsSplit]

/-- Token position invariant: extracting token 2 from a rendered label
recovers the first token of the underlying commit-log line, i.e. the
commit id. -/
theorem getCommitID_label (c : String) :
    getCommitID (renderLabel c) = some (idToken c) := by
  rw [getCommitID, if_neg (renderLabel_ne_empty c), jsSplit_label, idToken]
  rcases h : jsSplit ' ' c with _ | ⟨t, ts⟩
  · exact absurd h (jsSplit_ne_nil ' ' c)
  · simp

/-- Case analysis of an orchestration run: exactly one of the five exit
branches of the command handler applies, and each determines the
observable trace. -/
theorem orchestrate_structure (env : GitEnv) :
    (env.hasWorkspace = false ∧
      orchestrate env = ⟨["No workspace folder found."], [], none⟩) ∨
    (env.hasWorkspace = true ∧ jsFalsy (getCurrentBranch env.branchExec) = true ∧
      orchestrate env =
        ⟨["You are maybe in detached State, please checkout to a branch"],
         [GIT_COMMANDS.CURRENT_BRANCH], none⟩) ∨
    (env.hasWorkspace = true ∧ jsFalsy (getCurrentBranch env.branchExec) = false ∧
      jsFalsy (localCommitsOf env) = true ∧
      orchestrate env = ⟨["No local commits found."], queriesOf env, none⟩) ∨
    (env.hasWorkspace = true ∧ jsFalsy (getCurrentBranch env.branchExec) = false ∧
      jsFalsy (localCommitsOf env) = false ∧ jsFalsy (commitIDOf env) = true ∧
      orchestrate env = ⟨[], queriesOf env, none⟩) ∨
    (env.hasWorkspace = true ∧ jsFalsy (getCurrentBranch env.branchExec) = false ∧
      jsFalsy (localCommitsOf env) = false ∧ jsFalsy (commitIDOf env) = false ∧
      (orchestrate env).gitCommands =
        queriesOf env ++
          [GIT_COMMANDS.SQUASH_AND_COMMIT ((commitIDOf env).getD "")] ∧
      (orchestrate env).squashedID = some ((commitIDOf env).getD "")) := by
  unfold orchestrate
  cases hw : env.hasWorkspace with
  | false => simp [hw]
  | true =>
    cases hb : jsFalsy (getCurrentBranch env.branchExec) with
    | true => simp [hb]
    | false =>
      cases hl : jsFalsy (localCommitsOf env) with
      | true => simp [hb, hl]
      | false =>
        cases hc : jsFalsy (commitIDOf env) with
        | true => simp [hb, hl, hc]
        | false =>
          rcases hs : execGitCommand env.squashExec with e | s <;>
            simp [hb, hl, hc, hs]

/-- Character 6 of the squash command line is `s` (from `reset`),
whatever the commit id. -/
theorem data_get6_SQUASH (c : String) :
    (GIT_COMMANDS.SQUASH_AND_COMMIT c).data.get? 6 = some 's' := by
  rw [GIT_COMMANDS.SQUASH_AND_COMMIT, String.data_append, String.data_append]
  rfl

/-- Character 6 of the upstream query line is `v` (from `rev-parse`),
whatever the branch. -/
theorem data_get6_UPSTREAM (b : String) :
    (GIT_COMMANDS.UPSTREAM_BRANCH b).data.get? 6 = some 'v' := by
  rw [GIT_COMMANDS.UPSTREAM_BRANCH, String.data_append, String.data_append]
  rfl

/-- Character 6 of the tracking log query line is `g` (from `log`),
whatever the branches. -/
theorem data_get6_TRACKING (u b : String) :
    (GIT_COMMANDS.LOCAL_COMMITS_TRACKING u b).data.get? 6 = some 'g' := by
  rw [GIT_COMMANDS.LOCAL_COMMITS_TRACKING, String.data_append,
    String.data_append, String.data_append]
  rfl

/-- The squash command line never coincides with any of the read-only
query command lines. -/
theorem squash_ne_readonly (c cmd : String) (h : isReadOnlyCmd cmd) :
    GIT_COMMANDS.SQUASH_AND_COMMIT c ≠ cmd := by
  intro he
  have h6 : (GIT_COMMANDS.SQUASH_AND_COMMIT c).data.get? 6 = cmd.data.get? 6 := by
    rw [he]
  rw [data_get6_SQUASH] at h6
  rcases h with h | h | ⟨b, h⟩ | ⟨u, b, h⟩ <;> subst h
  · exact absurd h6 (by decide)
  · exact absurd h6 (by decide)
  · rw [data_get6_UPSTREAM] at h6
    exact absurd h6 (by decide)
  · rw [data_get6_TRACKING] at h6
    exact absurd h6 (by decide)

/-- The three queries issued after the detached-HEAD check are all
read-only commands. -/
theorem queries_readonly (env : GitEnv) :
    ∀ cmd ∈ queriesOf env, isReadOnlyCmd cmd := by
  intro cmd hm
  simp only [queriesOf, List.mem_cons, List.not_mem_nil, or_false] at hm
  rcases hm with rfl | rfl | rfl
  · exact Or.inl rfl
  · exact Or.inr (Or.inr (Or.inl ⟨branchOf env, rfl⟩))
  · rw [logCmdOf]
    by_cases hu : !jsFalsy (upstreamOf env)
    · rw [if_pos hu]
      exact Or.inr (Or.inr (Or.inr ⟨(upstreamOf env).getD "", branchOf env, rfl⟩))
    · rw [if_neg hu]
      exact Or.inr (Or.inl rfl)

/-- Folding a repository-state transition over a list of read-only
commands leaves the state unchanged, provided the transition fixes
every read-only command. -/
theorem foldl_readonly {S : Type} (step : S → String → S)
    (hstep : ∀ (s : S) (cmd : String), isReadOnlyCmd cmd → step s cmd = s) :
    ∀ (l : List String), (∀ cmd ∈ l, isReadOnlyCmd cmd) → ∀ s : S,
      l.foldl step s = s
  | [], _, _ => rfl
  | c :: cs, h, s => by
    rw [List.foldl_cons, hstep s c (h c (by simp))]
    exact foldl_readonly step hstep cs (fun x hx => h x (by simp [hx])) s

/-- C1: the claim says a run whose selected base is the root commit
aborts with "cannot squash onto the root commit" and never invokes the
Squash Executor.  The code has no parent check at all (the
`HAS_A_PARENT` command its own doc comment and README advertise is
absent from `GIT_COMMANDS`): on the concrete run `envRootSelected`,
where the selected base `abc123` is the root commit, the handler
reaches the squash step, issues the squash command, and never shows the
claimed message. -/
theorem C1_theorem :
    (orchestrate envRootSelected).squashedID = some "abc123" ∧
    GIT_COMMANDS.SQUASH_AND_COMMIT "abc123" ∈
      (orchestrate envRootSelected).gitCommands ∧
    "cannot squash onto the root commit" ∉
      (orchestrate envRootSelected).messages := by decide

/-- C2 counterexample: the command the source executes for base commit
`abc123` is not the claimed `git reset --soft abc123~1 && git commit
--amend` (the source has no `~1`). -/
theorem C2_counterexample :
    GIT_COMMANDS.SQUASH_AND_COMMIT "abc123" ≠
      SQUASH_AND_COMMIT_claimed "abc123" := by decide

/-- C2 (amended): for every run whose squash step executes with base
commit id `c`, the command issued is
`git reset --soft c && git commit --amend` — the branch pointer moves
to `c` itself (not to its parent) and `c` is amended to absorb the
staged changes. -/
theorem C2_theorem (env : GitEnv) (c : String)
    (h : (orchestrate env).squashedID = some c) :
    GIT_COMMANDS.SQUASH_AND_COMMIT c ∈ (orchestrate env).gitCommands ∧
    GIT_COMMANDS.SQUASH_AND_COMMIT c =
      "git reset --soft " ++ c ++ " && git commit --amend" := by
  refine ⟨?_, rfl⟩
  rcases orchestrate_structure env with ⟨_, he⟩ | ⟨_, _, he⟩ | ⟨_, _, _, he⟩ |
    ⟨_, _, _, _, he⟩ | ⟨_, _, _, _, hcmds, hsid⟩
  · rw [he] at h; simp at h
  · rw [he] at h; simp at h
  · rw [he] at h; simp at h
  · rw [he] at h; simp at h
  · rw [hsid] at h
    obtain rfl : (commitIDOf env).getD "" = c := Option.some.inj h
    rw [hcmds]
    simp

/-- C2 witness: on the concrete run `envSquashRun` the validated base
commit is `c2` and the issued command is
`git reset --soft c2 && git commit --amend`. -/
theorem C2_witness :
    (orchestrate envSquashRun).squashedID = some "c2" ∧
    (GIT_COMMANDS.SQUASH_AND_COMMIT "c2" ∈ (orchestrate envSquashRun).gitCommands ∧
     GIT_COMMANDS.SQUASH_AND_COMMIT "c2" =
       "git reset --soft " ++ "c2" ++ " && git commit --amend") :=
  ⟨by decide, C2_theorem envSquashRun "c2" (by decide)⟩

/-- C3: for every commit list given to the Commit Selector and every
selection outcome, the id produced by `showCommitSelection` followed by
`getCommitID` is either `null` or the id token of a commit present in
the input list — never an id absent from the input. -/
theorem C3_theorem (localCommits : String) (selection : Option Nat) :
    getCommitID (showCommitSelection localCommits selection) = none ∨
    ∃ c ∈ jsSplit '\n' localCommits,
      getCommitID (showCommitSelection localCommits selection) =
        some (idToken c) := by
  rcases selection with _ | i
  · left; rfl
  · rcases h : (jsSplit '\n' localCommits)[i]? with _ | c
    · left
      simp [showCommitSelection, h, getCommitID]
    · right
      refine ⟨c, List.getElem?_mem h, ?_⟩
      have hs : showCommitSelection localCommits (some i) = renderLabel c := by
        simp [showCommitSelection, h]
      rw [hs, getCommitID_label]

/-- C4: every run that reaches the commit-enumeration step issues, as
its third command, `git log --oneline <upstream>..<branch>` when an
upstream is configured and `git log --oneline` when none is. -/
theorem C4_theorem (env : GitEnv) (b : String)
    (hw : env.hasWorkspace = true)
    (hb : getCurrentBranch env.branchExec = some b) (hb0 : b ≠ "") :
    (getCurrentUpStreamBranch b env.upstreamExec = none →
      (orchestrate env).gitCommands[2]? = some GIT_COMMANDS.LOCAL_COMMITS) ∧
    (∀ u, getCurrentUpStreamBranch b env.upstreamExec = some u → u ≠ "" →
      (orchestrate env).gitCommands[2]? =
        some (GIT_COMMANDS.LOCAL_COMMITS_TRACKING u b)) := by
  have hbranch : branchOf env = b := by rw [branchOf, hb]; rfl
  have hup : upstreamOf env = getCurrentUpStreamBranch b env.upstreamExec := by
    rw [upstreamOf, hbranch]
  have hbf : jsFalsy (getCurrentBranch env.branchExec) = false := by
    rw [hb]
    simp [jsFalsy, hb0]
  have hq : (orchestrate env).gitCommands[2]? = some (logCmdOf env) := by
    rcases orchestrate_structure env with ⟨h1, _⟩ | ⟨_, h2, _⟩ | ⟨_, _, _, he⟩ |
      ⟨_, _, _, _, he⟩ | ⟨_, _, _, _, hcmds, _⟩
    · rw [hw] at h1; simp at h1
    · rw [hbf] at h2; simp at h2
    · rw [he]; rfl
    · rw [he]; rfl
    · rw [hcmds]
      rw [List.getElem?_append_left (by rw [queriesOf]; simp)]
      rfl
  constructor
  · intro hu
    rw [hq, logCmdOf, hup, hu]
    simp [jsFalsy]
  · intro u hu hu0
    rw [hq, logCmdOf, hup, hu, hbranch]
    simp [jsFalsy, hu0]

/-- C4 witness: with no upstream configured (`envFullLog`) the third
issued command is the full log; with upstream `origin/feature`
(`envSquashRun`) it is the tracking query. -/
theorem C4_witness :
    (orchestrate envFullLog).gitCommands[2]? = some GIT_COMMANDS.LOCAL_COMMITS ∧
    (orchestrate envSquashRun).gitCommands[2]? =
      some (GIT_COMMANDS.LOCAL_COMMITS_TRACKING "origin/feature" "feature") :=
  ⟨(C4_theorem envFullLog "main" rfl (by decide) (by decide)).1 (by decide),
   (C4_theorem envSquashRun "feature" rfl (by decide) (by decide)).2
     "origin/feature" (by decide) (by decide)⟩

/-- C7: every run that terminates before the squash step issues only
read-only queries, never the squash command; consequently, for every
repository-state transition that fixes read-only commands, any number
of repetitions of such a run (in particular one with the selection
immediately cancelled) leaves the repository state unchanged. -/
theorem C7_theorem (env : GitEnv)
    (h : env.selection = none ∨ (orchestrate env).squashedID = none) :
    (orchestrate env).squashedID = none ∧
    (∀ cmd ∈ (orchestrate env).gitCommands, isReadOnlyCmd cmd) ∧
    (∀ c, GIT_COMMANDS.SQUASH_AND_COMMIT c ∉ (orchestrate env).gitCommands) ∧
    (∀ (S : Type) (step : S → String → S),
      (∀ (s : S) (cmd : String), isReadOnlyCmd cmd → step s cmd = s) →
      ∀ (s : S) (n : Nat),
        (fun t => (orchestrate env).gitCommands.foldl step t)^[n] s = s) := by
  have hsid : (orchestrate env).squashedID = none := by
    rcases h with hsel | hsid
    · have hcid : commitIDOf env = none := by
        rw [commitIDOf, selectedOf, hsel]
        rfl
      rcases orchestrate_structure env with ⟨_, he⟩ | ⟨_, _, he⟩ | ⟨_, _, _, he⟩ |
        ⟨_, _, _, _, he⟩ | ⟨_, _, _, hcf, _, _⟩
      · rw [he]
      · rw [he]
      · rw [he]
      · rw [he]
      · rw [hcid] at hcf; simp [jsFalsy] at hcf
    · exact hsid
  have hcmds : ∀ cmd ∈ (orchestrate env).gitCommands, isReadOnlyCmd cmd := by
    rcases orchestrate_structure env with ⟨_, he⟩ | ⟨_, _, he⟩ | ⟨_, _, _, he⟩ |
      ⟨_, _, _, _, he⟩ | ⟨_, _, _, _, _, hs5⟩
    · rw [he]; intro cmd hm; simp at hm
    · rw [he]
      intro cmd hm
      simp only [List.mem_cons, List.not_mem_nil, or_false] at hm
      subst hm
      exact Or.inl rfl
    · rw [he]; exact queries_readonly env
    · rw [he]; exact queries_readonly env
    · rw [hs5] at hsid; simp at hsid
  have hns : ∀ c, GIT_COMMANDS.SQUASH_AND_COMMIT c ∉ (orchestrate env).gitCommands := by
    intro c hm
    exact squash_ne_readonly c _ (hcmds _ hm) rfl
  refine ⟨hsid, hcmds, hns, ?_⟩
  intro S step hstep s n
  induction n with
  | zero => rfl
  | succ k ih =>
    rw [Function.iterate_succ_apply', ih]
    exact foldl_readonly step hstep _ hcmds s

/-- C7 witness: the concrete cancelled run `envFullLog` reaches no
squash, and two repetitions of its command trace leave a state fixed
under a transition that fixes read-only commands. -/
theorem C7_witness :
    (envFullLog.selection = none ∨ (orchestrate envFullLog).squashedID = none) ∧
    ((orchestrate envFullLog).squashedID = none ∧
     (fun t => (orchestrate envFullLog).gitCommands.foldl
        (fun (s : Nat) _ => s) t)^[2] 0 = 0) :=
  ⟨Or.inl rfl,
   (C7_theorem envFullLog (Or.inl rfl)).1,
   (C7_theorem envFullLog (Or.inl rfl)).2.2.2 Nat (fun s _ => s)
     (fun _ _ _ => rfl) 0 2⟩

/-- C5 counterexample: on standard output `" main"` (leading space, no
trailing whitespace) the Command Runner returns `"main"`, while the
claimed trailing-only trim would leave `" main"` unchanged — the source
trims both ends. -/
theorem C5_counterexample :
    execGitCommand ⟨none, " main", ""⟩ = .ok "main" ∧
    trimTrailingOnly " main" = " main" ∧ ("main" : String) ≠ " main" :=
  ⟨rfl, rfl, by decide⟩

/-- C5 (amended): on success the Command Runner returns standard output
with leading and trailing whitespace trimmed; on any failure its
message is the captured standard error if non-empty, else the
process-level error description. -/
theorem C5_theorem (o : ExecOutcome) :
    (o.error = none → execGitCommand o = .ok (jsTrim o.stdout)) ∧
    (∀ m, o.error = some m →
      execGitCommand o = .error (if o.stderr = "" then m else o.stderr)) := by
  constructor
  · intro h
    rw [execGitCommand, h]
  · intro m h
    rw [execGitCommand, h]

/-- C5 witness: a successful run with `" x "` on standard output and a
failed run with non-empty standard error, both evaluated concretely. -/
theorem C5_witness :
    ((⟨none, " x ", ""⟩ : ExecOutcome).error = none ∧
      execGitCommand ⟨none, " x ", ""⟩ = .ok (jsTrim " x ")) ∧
    ((⟨some "spawn error", "", "stderr text"⟩ : ExecOutcome).error =
        some "spawn error" ∧
      execGitCommand ⟨some "spawn error", "", "stderr text"⟩ =
        .error (if ("stderr text" : String) = "" then "spawn error"
                else "stderr text")) :=
  ⟨⟨rfl, (C5_theorem ⟨none, " x ", ""⟩).1 rfl⟩,
   ⟨rfl, (C5_theorem ⟨some "spawn error", "", "stderr text"⟩).2 "spawn error" rfl⟩⟩

/-- C6: the claim says zero-selected and multi-selected outcomes both
resolve to the no-selection sentinel, each with its own explanation,
and never crash.  In the source, only `undefined` (cancel) and
two-or-more selections do; an accepted empty selection (`[]`, which is
truthy in JavaScript) falls through both guards and crashes with a
`TypeError` — contradicting the code's own "No commits are selected."
message and the README's list of handled conditions. -/
theorem C6_theorem :
    getCommitID_multi (some []) = MultiSelectOutcome.crash ∧
    getCommitID_multi none =
      MultiSelectOutcome.noSelection "No commits are selected." ∧
    getCommitID_multi (some ["c2 add", "c1 init"]) =
      MultiSelectOutcome.noSelection
        "You have selected more than one commits, Please select the oldest commit to keep as base" ∧
    getCommitID_multi (some ["c1 init"]) = MultiSelectOutcome.commitId "c1" := by
  decide

/-- C8: none of the three Repository State Reader operations propagates
a failure of its underlying command — each returns `null` whenever the
command's process reports an error. -/
theorem C8_theorem (b cmd : String) (o : ExecOutcome) (m : String)
    (h : o.error = some m) :
    getCurrentBranch o = none ∧ getCurrentUpStreamBranch b o = none ∧
    getLocalCommits cmd o = none := by
  refine ⟨?_, ?_, ?_⟩ <;>
    simp [getCurrentBranch, getCurrentUpStreamBranch, getLocalCommits,
      execGitCommand, h]

/-- C8 witness: a concrete failing process outcome makes all three
readers return `null`. -/
theorem C8_witness :
    (⟨some "boom", "", "err"⟩ : ExecOutcome).error = some "boom" ∧
    (getCurrentBranch ⟨some "boom", "", "err"⟩ = none ∧
     getCurrentUpStreamBranch "main" ⟨some "boom", "", "err"⟩ = none ∧
     getLocalCommits "git log --oneline" ⟨some "boom", "", "err"⟩ = none) :=
  ⟨rfl, C8_theorem "main" "git log --oneline" ⟨some "boom", "", "err"⟩ "boom" rfl⟩

/-- C9 counterexample: in a one-commit list the entry at the last index
(index 0) is annotated `(Most recent)`, not `(Oldest)` as the claim,
read over every commit list, would require. -/
theorem C9_counterexample :
    (["abc123 init"] : List String).length - 1 = 0 ∧
    getDescription 0 ["abc123 init"] = some "\t(Most recent)" ∧
    getDescription 0 ["abc123 init"] ≠ some "\t(Oldest)" := by
  decide

/-- C9 (amended): for every commit list with at least two entries, the
entry at index 0 is annotated `(Most recent)`, the entry at the last
index is annotated `(Oldest)`, and interior entries carry no
annotation; in a singleton list the sole entry is annotated
`(Most recent)`. -/
theorem C9_theorem (commits : List String) (h : 2 ≤ commits.length) :
    getDescription 0 commits = some "\t(Most recent)" ∧
    getDescription (commits.length - 1) commits = some "\t(Oldest)" ∧
    ∀ i, 0 < i → i < commits.length - 1 → getDescription i commits = none := by
  refine ⟨rfl, ?_, ?_⟩
  · have h0 : commits.length - 1 ≠ 0 := by omega
    simp [getDescription, h0]
  · intro i h1 h2
    have hi0 : i ≠ 0 := by omega
    have hil : i ≠ commits.length - 1 := by omega
    simp [getDescription, hi0, hil]

/-- C9 witness: the three-entry list, evaluated at its first, last and
interior index. -/
theorem C9_witness :
    2 ≤ threeCommits.length ∧
    getDescription 0 threeCommits = some "\t(Most recent)" ∧
    getDescription 2 threeCommits = some "\t(Oldest)" ∧
    getDescription 1 threeCommits = none :=
  ⟨by decide,
   (C9_theorem threeCommits (by decide)).1,
   (C9_theorem threeCommits (by decide)).2.1,
   (C9_theorem threeCommits (by decide)).2.2 1 (by decide) (by decide)⟩

/-- C10: in every one-commit list the sole entry — simultaneously
newest and oldest — is annotated `(Most recent)` and never `(Oldest)`:
the most-recent branch of `getDescription` takes precedence. -/
theorem C10_theorem (c : String) :
    getDescription 0 [c] = some "\t(Most recent)" ∧
    getDescription 0 [c] ≠ some "\t(Oldest)" := by
  refine ⟨rfl, ?_⟩
  intro h
  rw [show getDescription 0 [c] = some "\t(Most recent)" from rfl] at h
  exact absurd h (by decide)
